import Mathlib

/-
Verification of the batch download/transcription scripts of AutoYoutubeASR.

Python strings are embedded as lists of characters (type Str below); the
filesystem is embedded as the list of paths that currently exist; the external
collaborators (the downloader, the local whisper model, the remote
transcription API and the size of files on disk) are oracles passed in as
functions, so that every run of an orchestration loop is a pure fold over the
work-item list.  Every definition is translated from the named source
function; the few stdlib routines the scripts call (str.split, str.replace,
os.path.join, os.path.dirname, os.path.basename, os.path.splitext,
urllib.parse.parse_qs) are modelled by the executable helpers at the top.
-/

namespace AutoYoutubeASR

/-- Python strings are modelled as lists of characters. -/
abbrev Str := List Char

/-- Conversion of a Lean string literal to the model type. -/
def str (s : String) : Str := s.data

/-- Step function for splitOnSeq: scans the text left to right, cutting at
each non-overlapping occurrence of the separator, like Python str.split with
a non-empty separator.  The fuel argument is an upper bound on the number of
characters still to scan; callers pass the length of the text, which always
suffices because each step consumes at least one character. -/
def splitOnSeqAux (sep : Str) : Nat → Str → Str → List Str
  | _, [], acc => [acc.reverse]
  | 0, s, acc => [acc.reverse ++ s]
  | fuel + 1, c :: rest, acc =>
    if sep ≠ [] ∧ sep.isPrefixOf (c :: rest) then
      acc.reverse :: splitOnSeqAux sep fuel (List.drop sep.length (c :: rest)) []
    else
      splitOnSeqAux sep fuel rest (c :: acc)

/-- Python str.split(sep) for a non-empty separator sep. -/
def splitOnSeq (sep s : Str) : List Str := splitOnSeqAux sep s.length s []

/-- Python single-character str.replace(c, r): every occurrence of the
one-character pattern is replaced, which is a pointwise map. -/
def replaceChar (c r : Char) (s : Str) : Str :=
  s.map (fun x => if x = c then r else x)

/-- Sequential replacement of each character of cs by an underscore, as the
loop `for char in [...]: filename = filename.replace(char, '_')` does in
src/down_load_ytvoice.py lines 45-46 and 100-101. -/
def replaceAll (cs : List Char) (s : Str) : Str :=
  match cs with
  | [] => s
  | c :: rest => replaceAll rest (replaceChar c '_' s)

/-- Python os.path.basename for POSIX paths: the part after the last slash. -/
def basename (p : Str) : Str :=
  (p.reverse.takeWhile (fun c => decide (c ≠ '/'))).reverse

/-- Python os.path.dirname for POSIX paths: the part before the last slash,
with trailing slashes stripped unless the head consists only of slashes. -/
def dirname (p : Str) : Str :=
  let head := p.take (p.length - (basename p).length)
  if head = [] then []
  else if head.all (fun c => decide (c = '/')) then head
  else (head.reverse.dropWhile (fun c => decide (c = '/'))).reverse

/-- Root part of Python os.path.splitext: the path with its extension (the
suffix after the last dot of the basename) removed; a basename whose part
before the last dot is all dots, such as ".bashrc", keeps its dot. -/
def splitextRoot (p : Str) : Str :=
  let b := basename p
  if '.' ∈ b then
    let extLen := (b.reverse.takeWhile (fun c => decide (c ≠ '.'))).length
    let stem := b.take (b.length - extLen - 1)
    if stem.all (fun c => decide (c = '.')) then p
    else p.take (p.length - extLen - 1)
  else p

/-- Python os.path.join for a relative second component, as used by every
script here (none of the joined names is absolute). -/
def pathJoin (d n : Str) : Str := d ++ str "/" ++ n

/-- The filesystem is the list of existing paths; creating a file that
already exists (rewriting its content) leaves the set of paths unchanged. -/
def fsAdd (p : Str) (fs : List Str) : List Str :=
  if p ∈ fs then fs else p :: fs

/-- Removal of a path from the filesystem (os.remove). -/
def fsRemove (p : Str) (fs : List Str) : List Str :=
  fs.filter (fun q => decide (q ≠ p))

/-- Result of urllib.parse.urlparse as consumed by get_video_id: the
(lowercased) hostname, the path and the raw query string.  urlparse of a URL
with a network location always yields a path that is empty or starts with a
slash. -/
structure ParsedUrl where
  hostname : Option Str
  path : Str
  query : Str

/-- Values of one key under urllib.parse.parse_qs with default options: the
query splits on ampersands, each field splits at its first equals sign (a
field with no equals sign or with a blank value is dropped), and values for
the key are kept in order.  Percent-decoding is not modelled; the video
identifiers at issue contain no escape sequences. -/
def parse_qs_values (q : Str) (key : Str) : List Str :=
  (splitOnSeq (str "&") q).filterMap fun pair =>
    let parts := splitOnSeq (str "=") pair
    if parts.length ≤ 1 then none
    else
      let k := parts.headD []
      let v := List.intercalate (str "=") parts.tail
      if k = key ∧ v ≠ [] then some v else none

/-- Python expression query.get("v", [None])[0] over parse_qs(query): the
first value of the v parameter, or None when the parameter is absent. -/
def query_param_v (q : Str) : Option Str := (parse_qs_values q (str "v")).head?

/-- Translation of get_video_id, src/down_load_ytvoice.py lines 11-26.  The
indexing path.split("/")[2] is written with a default, which agrees with the
Python indexing because a path starting with "/embed/" or "/v/" always splits
into at least three parts. -/
def get_video_id (u : ParsedUrl) : Option Str :=
  if u.hostname = some (str "youtu.be") then some (u.path.drop 1)
  else if u.hostname = some (str "www.youtube.com") ∨ u.hostname = some (str "youtube.com") then
    if u.path = str "/watch" then query_param_v u.query
    else if (str "/embed/").isPrefixOf u.path then
      some ((splitOnSeq (str "/") u.path).getD 2 [])
    else if (str "/v/").isPrefixOf u.path then
      some ((splitOnSeq (str "/") u.path).getD 2 [])
    else none
  else none

/-- Modelled from the claim wording of the spec, for comparison with
get_video_id: the recognized URL shapes, each carrying a nonempty embedded
identifier — a youtu.be short link with the identifier as the path, a
youtube.com or www.youtube.com /watch URL with the identifier in the v query
parameter, and a youtube.com /embed/ or /v/ URL with the identifier as the
following path segment.  A URL of no recognized shape carries no
identifier. -/
def recognizedId (u : ParsedUrl) : Option Str :=
  if u.hostname = some (str "youtu.be") then
    match u.path with
    | '/' :: c :: rest => some (c :: rest)
    | _ => none
  else if u.hostname = some (str "www.youtube.com") ∨ u.hostname = some (str "youtube.com") then
    if u.path = str "/watch" then query_param_v u.query
    else if (str "/embed/").isPrefixOf u.path then
      if (splitOnSeq (str "/") u.path).getD 2 [] = [] then none
      else some ((splitOnSeq (str "/") u.path).getD 2 [])
    else if (str "/v/").isPrefixOf u.path then
      if (splitOnSeq (str "/") u.path).getD 2 [] = [] then none
      else some ((splitOnSeq (str "/") u.path).getD 2 [])
    else none
  else none

/-- Output directory of the crawler scripts (ytCrawler_claude.py,
ytCrawler_deepseek.py, ytCrawler_grok.py line 18). -/
def OUTPUT_DIR : Str := str "gooaye_videos"

/-- Transcript directory of the crawler scripts (line 19 of each). -/
def TRANSCRIPTS_DIR : Str := str "gooaye_transcripts"

/-- Audio artifact location used by extract_audio in each crawler script:
os.path.join(OUTPUT_DIR, f"(video_id).mp3"). -/
def audioPath (id : Str) : Str := pathJoin OUTPUT_DIR (id ++ str ".mp3")

/-- Transcript location written by transcribe_with_whisper in each crawler
script: os.path.join(TRANSCRIPTS_DIR, f"(video_id)_whisper.txt"). -/
def whisperTxtPath (id : Str) : Str := pathJoin TRANSCRIPTS_DIR (id ++ str "_whisper.txt")

/-- Transcript location written by transcribe_with_openai in each crawler
script: os.path.join(TRANSCRIPTS_DIR, f"(video_id)_openai.txt"). -/
def openaiTxtPath (id : Str) : Str := pathJoin TRANSCRIPTS_DIR (id ++ str "_openai.txt")

/-- External collaborators of the crawler scripts, as oracles: whether
yt_dlp's download of a video id succeeds, whether the local whisper model
transcribes a given audio path without raising, whether the OpenAI API call
on a given audio path succeeds, and the on-disk size os.path.getsize reports
for a given audio path. -/
structure Collaborators where
  downloadOk : Str → Bool
  whisperOk : Str → Bool
  openaiOk : Str → Bool
  audioSize : Str → Nat

/-- State threaded through a crawler run: the filesystem plus the log of
externally visible invocations — items the main loop has begun processing,
video ids passed to yt_dlp's downloader, audio paths fed to the local
whisper model, and audio paths actually submitted to the remote API. -/
structure RunState where
  fs : List Str
  visited : List Str
  downloads : List Str
  whisperRuns : List Str
  openaiSubmits : List Str
deriving DecidableEq, Repr

/-- Run state at process start: empty logs over a given filesystem. -/
def startState (fs : List Str) : RunState :=
  { fs := fs, visited := [], downloads := [], whisperRuns := [], openaiSubmits := [] }

/-- Translation of extract_audio, src/ytCrawler_claude.py lines 126-147: if
the mp3 already exists the download is skipped, otherwise yt_dlp is invoked;
that invocation is not wrapped in any try block, so a download failure raises
out of the function, modelled as the error case carrying the state at the
raise. -/
def claude_extract_audio (env : Collaborators) (s : RunState) (id : Str) :
    Except RunState (RunState × Str) :=
  let ap := audioPath id
  if ap ∈ s.fs then .ok (s, ap)
  else
    let s1 := { s with downloads := s.downloads ++ [id] }
    if env.downloadOk id then .ok ({ s1 with fs := fsAdd ap s1.fs }, ap)
    else .error s1

/-- Translation of extract_audio, src/ytCrawler_deepseek.py lines 73-99 and
src/ytCrawler_grok.py lines 69-93: identical to the claude variant except
that the yt_dlp invocation sits in a try block, so a download failure is
caught and None is returned. -/
def crawler_extract_audio (env : Collaborators) (s : RunState) (id : Str) :
    RunState × Option Str :=
  let ap := audioPath id
  if ap ∈ s.fs then (s, some ap)
  else
    let s1 := { s with downloads := s.downloads ++ [id] }
    if env.downloadOk id then ({ s1 with fs := fsAdd ap s1.fs }, some ap)
    else (s1, none)

/-- Translation of transcribe_with_whisper as it affects the run state, from
src/ytCrawler_claude.py lines 85-97, src/ytCrawler_deepseek.py lines 101-114
and src/ytCrawler_grok.py lines 95-107: the model is always invoked on the
audio path; on success the whisper transcript file is written and its path
returned, on failure nothing is written and the failure is caught (inside
the function in the deepseek and grok variants, by the caller's try block in
the claude variant — the net state effect is the same). -/
def transcribe_with_whisper (env : Collaborators) (s : RunState) (id ap : Str) :
    RunState × Option Str :=
  let s1 := { s with whisperRuns := s.whisperRuns ++ [ap] }
  if env.whisperOk ap then
    ({ s1 with fs := fsAdd (whisperTxtPath id) s1.fs }, some (whisperTxtPath id))
  else (s1, none)

/-- Translation of transcribe_with_openai as it affects the run state, from
src/ytCrawler_claude.py lines 99-124, src/ytCrawler_deepseek.py lines
116-143 and src/ytCrawler_grok.py lines 109-133: the size of the audio file
is checked first and a file over 25 * 1024 * 1024 bytes makes the function
return None with no API call; otherwise the file is submitted, and on
success the openai transcript file is written and its path returned.  An API
failure is caught (inside the function in the deepseek and grok variants, by
the caller's try block in the claude variant — the net state effect is the
same). -/
def transcribe_with_openai (env : Collaborators) (s : RunState) (id ap : Str) :
    RunState × Option Str :=
  if env.audioSize ap > 25 * 1024 * 1024 then (s, none)
  else
    let s1 := { s with openaiSubmits := s.openaiSubmits ++ [ap] }
    if env.openaiOk ap then
      ({ s1 with fs := fsAdd (openaiTxtPath id) s1.fs }, some (openaiTxtPath id))
    else (s1, none)

/-- Body of the per-item part of main in src/ytCrawler_claude.py lines
161-184: extract the audio (uncaught on failure), then run both transcription
backends, each wrapped in its own try block. -/
def claude_process_item (env : Collaborators) (s : RunState) (id : Str) :
    Except RunState RunState :=
  match claude_extract_audio env s id with
  | .error s1 => .error s1
  | .ok (s1, ap) =>
    let s2 := (transcribe_with_whisper env s1 id ap).1
    .ok (transcribe_with_openai env s2 id ap).1

/-- Translation of the main loop of src/ytCrawler_claude.py lines 161-184
over a list of video ids: items are processed in order; an uncaught
exception from extract_audio aborts the loop, reported by the Bool
component. -/
def claude_main (env : Collaborators) : RunState → List Str → RunState × Bool
  | s, [] => (s, false)
  | s, id :: rest =>
    let s0 := { s with visited := s.visited ++ [id] }
    match claude_process_item env s0 id with
    | .error s1 => (s1, true)
    | .ok s1 => claude_main env s1 rest

/-- Translation of the main loop of src/ytCrawler_grok.py lines 147-162: a
failed extraction yields None and the loop continues with the next item;
both transcription backends catch their own failures. -/
def grok_main (env : Collaborators) : RunState → List Str → RunState
  | s, [] => s
  | s, id :: rest =>
    let s0 := { s with visited := s.visited ++ [id] }
    match crawler_extract_audio env s0 id with
    | (s1, none) => grok_main env s1 rest
    | (s1, some ap) =>
      let s2 := (transcribe_with_whisper env s1 id ap).1
      let s3 := (transcribe_with_openai env s2 id ap).1
      grok_main env s3 rest

/-- Body of the per-item part of main in src/ytCrawler_deepseek.py lines
170-194: extract the audio (caught, continue on None or a missing file), run
both transcription backends, then unconditionally os.remove the audio file
inside a try/except-pass block. -/
def deepseek_process_item (env : Collaborators) (s : RunState) (id : Str) : RunState :=
  match crawler_extract_audio env s id with
  | (s1, none) => s1
  | (s1, some ap) =>
    if ap ∈ s1.fs then
      let s2 := (transcribe_with_whisper env s1 id ap).1
      let s3 := (transcribe_with_openai env s2 id ap).1
      { s3 with fs := fsRemove ap s3.fs }
    else s1

/-- Translation of the main loop of src/ytCrawler_deepseek.py lines 170-194
over a list of video ids. -/
def deepseek_main (env : Collaborators) : RunState → List Str → RunState
  | s, [] => s
  | s, id :: rest =>
    let s0 := { s with visited := s.visited ++ [id] }
    deepseek_main env (deepseek_process_item env s0 id) rest

/-- One page of the paginated YouTube search: for a page token, either the
page's video ids together with the next page token, or a raised error. -/
def PageFetch : Type := Option Str → Except Unit (List Str × Option Str)

/-- Translation of get_all_video_ids, src/ytCrawler_deepseek.py lines 39-71:
the while-True loop accumulates ids page by page; the body sits in a try
block, so an error while fetching a page breaks out of the loop and the ids
gathered so far are returned.  The fuel argument bounds the number of page
fetches; a run whose pagination terminates is reproduced by any
sufficiently large fuel. -/
def deepseek_get_all_video_ids (pages : PageFetch) : Nat → Option Str → List Str → List Str
  | 0, _, acc => acc
  | fuel + 1, token, acc =>
    match pages token with
    | .error _ => acc
    | .ok (items, next) =>
      match next with
      | none => acc ++ items
      | some t => deepseek_get_all_video_ids pages fuel (some t) (acc ++ items)

/-- Inner loop of get_all_video_ids, src/ytCrawler_grok.py lines 39-67,
before its surrounding try block: an error while fetching a page propagates
out. -/
def grok_get_all_aux (pages : PageFetch) : Nat → Option Str → List Str → Except Unit (List Str)
  | 0, _, acc => .ok acc
  | fuel + 1, token, acc =>
    match pages token with
    | .error e => .error e
    | .ok (items, next) =>
      match next with
      | none => .ok (acc ++ items)
      | some t => grok_get_all_aux pages fuel (some t) (acc ++ items)

/-- Translation of get_all_video_ids, src/ytCrawler_grok.py lines 39-67: the
try block wraps the whole accumulation including the initialisation of
video_ids, and the except branch returns the empty list. -/
def grok_get_all_video_ids (pages : PageFetch) (fuel : Nat) : List Str :=
  match grok_get_all_aux pages fuel none [] with
  | .ok l => l
  | .error _ => []

/-- Modelled from the spec wording for comparison: the video ids discovered
from the pages fetched before a failure (or before pagination ends), in
order. -/
def discoveredBeforeFailure (pages : PageFetch) : Nat → Option Str → List Str
  | 0, _ => []
  | fuel + 1, token =>
    match pages token with
    | .error _ => []
    | .ok (items, next) =>
      match next with
      | none => items
      | some t => items ++ discoveredBeforeFailure pages fuel (some t)

/-- Characters replaced by an underscore before a title is used as a
filesystem name, src/down_load_ytvoice.py lines 45 and 100. -/
def illegalFilenameChars : List Char := ['/', '\\', ':', '*', '?', '"', '<', '>', '|']

/-- Sanitization loop shared by download_audio (src/down_load_ytvoice.py
lines 44-46) and download_playlist (lines 99-101): each illegal character of
the name is replaced by an underscore. -/
def sanitize_filename (s : Str) : Str := replaceAll illegalFilenameChars s

/-- Filename constructed by download_audio, src/down_load_ytvoice.py lines
42-51: the sanitized video title, with the stream subtype appended as an
extension when the name does not already end with it.  Title and subtype are
responses of the remote video service, not functions of the video id. -/
def download_audio_filename (title subtype : Str) : Str :=
  if (str "." ++ subtype).isSuffixOf (sanitize_filename title) then sanitize_filename title
  else sanitize_filename title ++ str "." ++ subtype

/-- Full path of the file stored by download_audio, src/down_load_ytvoice.py
lines 28-58: pytubefix downloads into output_dir under the constructed
filename.  The video_id parameter mirrors the function's signature; the
stored location also depends on the title and subtype fetched from the
remote service for that id. -/
def download_audio_path (output_dir video_id title subtype : Str) : Str :=
  let _ := video_id
  pathJoin output_dir (download_audio_filename title subtype)

/-- Accumulated state of the download_playlist loop: the count
successful_downloads and the video ids for which download_audio was
invoked. -/
structure PlaylistState where
  successes : Nat
  attempts : List Str
deriving DecidableEq, Repr

/-- Translation of the loop of download_playlist, src/down_load_ytvoice.py
lines 110-127: for each playlist entry, an entry whose URL yields no video
id (None or the empty string, both falsy in Python) is skipped; then, when a
positive limit has been reached by successful_downloads, the loop breaks;
otherwise download_audio is attempted and a successful download increments
successful_downloads.  The downloader oracle dl returns the downloaded file
or None. -/
def download_playlist_loop (dl : Str → Option Str) (limit : Nat) :
    List ParsedUrl → PlaylistState → PlaylistState
  | [], st => st
  | u :: rest, st =>
    match get_video_id u with
    | none => download_playlist_loop dl limit rest st
    | some vid =>
      if vid = [] then download_playlist_loop dl limit rest st
      else if 0 < limit ∧ limit ≤ st.successes then st
      else
        let st1 := { st with attempts := st.attempts ++ [vid] }
        match dl vid with
        | some _ =>
          download_playlist_loop dl limit rest { st1 with successes := st1.successes + 1 }
        | none => download_playlist_loop dl limit rest st1

/-- Transcript location chosen by process_audio_file,
src/test_whisper_large.py lines 62-76: a path under a voices directory gets
its transcript next to the original video-id directory, any other path gets
the transcript beside it; the Python test "'/voices/' in audio_path" holds
exactly when the split on "/voices/" yields more than one part, so the two
nested conditions of the source collapse to one here. -/
def transcriptOutputFile (audio_path : Str) : Str :=
  let parts := splitOnSeq (str "/voices/") audio_path
  if parts.length > 1 then
    let video_id_path := (splitOnSeq (str "/") (parts.getD 1 [])).headD []
    let video_dir := pathJoin (dirname (dirname audio_path)) video_id_path
    pathJoin video_dir (splitextRoot (basename audio_path) ++ str "_transcript.txt")
  else splitextRoot audio_path ++ str "_transcript.txt"

/-- Translation of process_audio_file, src/test_whisper_large.py lines
44-93, over the filesystem: a missing audio file returns False; otherwise
the model transcribes (a raised exception — the oracle answering none —
propagates with the filesystem unchanged, since the call sits in no try
block, modelled by the error case), the transcript is written, and the audio
file is then removed exactly when delete_after is set. -/
def process_audio_file (tr : Str → Option Str) (fs : List Str)
    (audio_path : Str) (delete_after : Bool) : Except (List Str) (List Str × Bool) :=
  if audio_path ∈ fs then
    match tr audio_path with
    | none => .error fs
    | some _ =>
      let fs1 := fsAdd (transcriptOutputFile audio_path) fs
      .ok (if delete_after then fsRemove audio_path fs1 else fs1, true)
  else .ok (fs, false)

/-- Filesystem state after a process_audio_file call, whether it returned or
raised. -/
def fsAfter (r : Except (List Str) (List Str × Bool)) : List Str :=
  match r with
  | .error f => f
  | .ok (f, _) => f

/-- Run state an item-processing step ends in, whether it returned or
raised. -/
def stateOfItem (r : Except RunState RunState) : RunState :=
  match r with
  | .error t => t
  | .ok t => t

/-- Characters accepted in a YouTube video id by main,
src/test_whisper_large.py line 230. -/
def allowedVideoIdChars : List Char :=
  str "abcdefghijklmnopqrstuvwxyzABCDEFGHIJKLMNOPQRSTUVWXYZ0123456789_-"

/-- Test applied by main, src/test_whisper_large.py line 230: the input is
exactly 11 characters long and each character lies in the allowed set. -/
def looksLikeVideoId (input : Str) : Bool :=
  input.length == 11 && input.all (fun c => decide (c ∈ allowedVideoIdChars))

/-- How main classifies its positional argument,
src/test_whisper_large.py lines 226-245. -/
inductive InputKind where
  | audioFile
  | videoId
  | invalid
deriving DecidableEq, Repr

/-- Translation of the classification in main, src/test_whisper_large.py
lines 226-245: an existing file path is processed as audio; otherwise an
11-character string over the allowed alphabet is treated as a video id; any
other input is reported invalid and nothing is processed. -/
def classifyInput (fileExists : Bool) (input : Str) : InputKind :=
  if fileExists then .audioFile
  else if looksLikeVideoId input then .videoId
  else .invalid

/-- Modelled from the claim wording for comparison: the character is an
ASCII letter, an ASCII digit, an underscore or a hyphen. -/
def asciiIdChar (c : Char) : Prop :=
  (65 ≤ c.toNat ∧ c.toNat ≤ 90) ∨ (97 ≤ c.toNat ∧ c.toNat ≤ 122) ∨
    (48 ≤ c.toNat ∧ c.toNat ≤ 57) ∨ c = '_' ∨ c = '-'

instance (c : Char) : Decidable (asciiIdChar c) := by
  unfold asciiIdChar; infer_instance

/-- Collaborator oracle on which every external call succeeds and every
audio file is small. -/
def allSuccessEnv : Collaborators :=
  { downloadOk := fun _ => true, whisperOk := fun _ => true,
    openaiOk := fun _ => true, audioSize := fun _ => 0 }

/-- Collaborator oracle on which downloading the video id "a" fails and
everything else succeeds. -/
def failDownloadAEnv : Collaborators :=
  { downloadOk := fun id => decide (id ≠ str "a"), whisperOk := fun _ => true,
    openaiOk := fun _ => true, audioSize := fun _ => 0 }

/-- Collaborator oracle on which downloads succeed but both transcription
backends fail. -/
def bothBackendsFailEnv : Collaborators :=
  { downloadOk := fun _ => true, whisperOk := fun _ => false,
    openaiOk := fun _ => false, audioSize := fun _ => 0 }

/-- Collaborator oracle reporting every audio file as 26 MiB. -/
def oversizeEnv : Collaborators :=
  { downloadOk := fun _ => true, whisperOk := fun _ => true,
    openaiOk := fun _ => true, audioSize := fun _ => 26 * 1024 * 1024 }

/-- Page oracle whose first page holds the video id "a" and announces a next
page, and whose second fetch raises. -/
def onePageThenErrorFetch : PageFetch := fun t =>
  match t with
  | none => .ok ([str "a"], some (str "T"))
  | some _ => .error ()

/-- Downloader oracle for the playlist loop that fails on the video id "a"
and succeeds on everything else. -/
def playlistDlFailA : Str → Option Str := fun vid =>
  if vid = str "a" then none else some (str "f.m4a")

/-- Transcription oracle for process_audio_file that always succeeds. -/
def alwaysOkTr : Str → Option Str := fun _ => some (str "text")

/-- Short-link URL youtu.be/dQw4w9WgXcQ as parsed by urlparse. -/
def shortLinkUrl : ParsedUrl :=
  { hostname := some (str "youtu.be"), path := str "/dQw4w9WgXcQ", query := [] }

/-- Short-link host with a bare slash as path, https://youtu.be/, as parsed
by urlparse. -/
def emptyShortLinkUrl : ParsedUrl :=
  { hostname := some (str "youtu.be"), path := str "/", query := [] }

/-- A character other than the replacement never appears in the result of
replacing itself. -/
theorem notMem_replaceChar_self (c : Char) (s : Str) (h : c ≠ '_') :
    c ∉ replaceChar c '_' s := by
  intro hm
  rcases List.mem_map.mp hm with ⟨y, _, hxy⟩
  by_cases hyc : y = c
  · rw [if_pos hyc] at hxy
    exact h hxy.symm
  · rw [if_neg hyc] at hxy
    exact hyc hxy

/-- Replacing a character by an underscore introduces no character other
than the underscore. -/
theorem notMem_replaceChar (d : Char) (s : Str) (c : Char) (h1 : c ∉ s) (h2 : c ≠ '_') :
    c ∉ replaceChar d '_' s := by
  intro hm
  rcases List.mem_map.mp hm with ⟨y, hy, hxy⟩
  by_cases hyd : y = d
  · rw [if_pos hyd] at hxy
    exact h2 hxy.symm
  · rw [if_neg hyd] at hxy
    exact h1 (hxy ▸ hy)

/-- Sequential replacement introduces no character other than the
underscore. -/
theorem notMem_replaceAll_of_notMem (cs : List Char) :
    ∀ (s : Str) (c : Char), c ∉ s → c ≠ '_' → c ∉ replaceAll cs s := by
  induction cs with
  | nil => intro s c h _; simpa [replaceAll] using h
  | cons d rest ih =>
    intro s c h1 h2
    exact ih (replaceChar d '_' s) c (notMem_replaceChar d s c h1 h2) h2

/-- Every replaced character is absent from the sanitized result. -/
theorem notMem_replaceAll (cs : List Char) :
    ∀ (s : Str) (c : Char), c ∈ cs → c ≠ '_' → c ∉ replaceAll cs s := by
  induction cs with
  | nil => intro s c h; exact absurd h (List.not_mem_nil c)
  | cons d rest ih =>
    intro s c hc hne
    rcases List.mem_cons.mp hc with h | h
    · subst h
      exact notMem_replaceAll_of_notMem rest (replaceChar c '_' s) c
        (notMem_replaceChar_self c s hne) hne
    · exact ih (replaceChar d '_' s) c h hne

/-- Claim C9: every occurrence of the characters / \ : * ? " < > | in a video
title is replaced by an underscore before the title is used as a filesystem
name, so neither the sanitized playlist directory name of download_playlist
nor the audio filename of download_audio contains any of those characters
(the filename also appends the stream subtype, which the hypothesis keeps
clean, as real stream subtypes such as mp4 or webm are). -/
theorem c9_sanitization (title ext : Str)
    (hext : ∀ c ∈ illegalFilenameChars, c ∉ ext) :
    (∀ c ∈ illegalFilenameChars, c ∉ sanitize_filename title) ∧
    (∀ c ∈ illegalFilenameChars, c ∉ download_audio_filename title ext) := by
  have hund : ∀ c ∈ illegalFilenameChars, c ≠ '_' := by decide
  have hdot : ∀ c ∈ illegalFilenameChars, c ∉ str "." := by decide
  have hsan : ∀ c ∈ illegalFilenameChars, c ∉ sanitize_filename title := fun c hc =>
    notMem_replaceAll illegalFilenameChars title c hc (hund c hc)
  refine ⟨hsan, ?_⟩
  intro c hc
  unfold download_audio_filename
  split
  · exact hsan c hc
  · intro hmem
    rcases List.mem_append.mp hmem with h | h
    · rcases List.mem_append.mp h with h2 | h2
      · exact hsan c hc h2
      · exact hdot c hc h2
    · exact hext c hc h

/-- Witness for c9_sanitization at a concrete title and the subtype m4a. -/
theorem c9_sanitization_witness :
    (∀ c ∈ illegalFilenameChars, c ∉ str "m4a") ∧
    ((∀ c ∈ illegalFilenameChars, c ∉ sanitize_filename (str "a/b:c*?")) ∧
      (∀ c ∈ illegalFilenameChars, c ∉ download_audio_filename (str "a/b:c*?") (str "m4a"))) :=
  ⟨by decide, c9_sanitization (str "a/b:c*?") (str "m4a") (by decide)⟩

/-- The literal character set of src/test_whisper_large.py line 230 holds
exactly the ASCII letters, the ASCII digits, the underscore and the
hyphen. -/
theorem mem_allowedVideoIdChars_iff (c : Char) : c ∈ allowedVideoIdChars ↔ asciiIdChar c := by
  constructor
  · have h1 : ∀ d ∈ allowedVideoIdChars, asciiIdChar d := by decide
    exact h1 c
  · have hup : ∀ n, 65 ≤ n → n ≤ 90 → Char.ofNat n ∈ allowedVideoIdChars := by
      intro n ha hb
      interval_cases n <;> decide
    have hlo : ∀ n, 97 ≤ n → n ≤ 122 → Char.ofNat n ∈ allowedVideoIdChars := by
      intro n ha hb
      interval_cases n <;> decide
    have hdi : ∀ n, 48 ≤ n → n ≤ 57 → Char.ofNat n ∈ allowedVideoIdChars := by
      intro n ha hb
      interval_cases n <;> decide
    intro h
    rcases h with ⟨ha, hb⟩ | ⟨ha, hb⟩ | ⟨ha, hb⟩ | h | h
    · have := hup c.toNat ha hb
      rwa [Char.ofNat_toNat] at this
    · have := hlo c.toNat ha hb
      rwa [Char.ofNat_toNat] at this
    · have := hdi c.toNat ha hb
      rwa [Char.ofNat_toNat] at this
    · subst h; decide
    · subst h; decide

/-- Claim C10: when the command-line input is not a path to an existing
file, the driver treats it as a YouTube video identifier exactly when it is
11 characters long and made of ASCII letters, digits, underscores and
hyphens, and reports every other such input as invalid. -/
theorem c10_video_id_classification (input : Str) :
    (classifyInput false input = InputKind.videoId ↔
      input.length = 11 ∧ ∀ c ∈ input, asciiIdChar c) ∧
    (classifyInput false input = InputKind.invalid ↔
      ¬ (input.length = 11 ∧ ∀ c ∈ input, asciiIdChar c)) := by
  have hb : looksLikeVideoId input = true ↔
      input.length = 11 ∧ ∀ c ∈ input, asciiIdChar c := by
    unfold looksLikeVideoId
    rw [Bool.and_eq_true, beq_iff_eq, List.all_eq_true]
    constructor
    · rintro ⟨h1, h2⟩
      refine ⟨h1, fun c hc => ?_⟩
      exact (mem_allowedVideoIdChars_iff c).mp (of_decide_eq_true (h2 c hc))
    · rintro ⟨h1, h2⟩
      refine ⟨h1, fun c hc => ?_⟩
      exact decide_eq_true ((mem_allowedVideoIdChars_iff c).mpr (h2 c hc))
  unfold classifyInput
  by_cases hl : looksLikeVideoId input = true
  · rw [if_neg Bool.false_ne_true, if_pos hl]
    constructor
    · constructor
      · intro _; exact hb.mp hl
      · intro _; rfl
    · constructor
      · intro h; exact absurd h (by decide)
      · intro h; exact absurd (hb.mp hl) h
  · rw [if_neg Bool.false_ne_true, if_neg hl]
    constructor
    · constructor
      · intro h; exact absurd h (by decide)
      · intro h; exact absurd (hb.mpr h) hl
    · constructor
      · intro _; exact fun h => hl (hb.mpr h)
      · intro _; rfl

/-- Claim C4: an audio file whose size exceeds 25 MiB makes
transcribe_with_openai return the failure value None with the run state
unchanged — so nothing is submitted to the remote API (openaiSubmits does
not grow), no transcript is written, and there is no truncation or retry,
the function returning after the single size check. -/
theorem c4_size_limit_rejection (env : Collaborators) (s : RunState) (id ap : Str)
    (h : env.audioSize ap > 25 * 1024 * 1024) :
    transcribe_with_openai env s id ap = (s, none) := by
  unfold transcribe_with_openai
  rw [if_pos h]

/-- Witness for c4_size_limit_rejection on a 26 MiB file. -/
theorem c4_size_limit_rejection_witness :
    oversizeEnv.audioSize (audioPath (str "a")) > 25 * 1024 * 1024 ∧
    transcribe_with_openai oversizeEnv (startState []) (str "a") (audioPath (str "a")) =
      (startState [], none) :=
  ⟨by decide, c4_size_limit_rejection oversizeEnv (startState []) (str "a")
    (audioPath (str "a")) (by decide)⟩

/-- Counterexample to claim C1 as stated: with every collaborator
succeeding, run the claude crawler loop over the single video id "a", then
run it again over the filesystem the first run left.  The second run invokes
the local whisper transcription again (its invocation log is nonempty), so a
completed first run does not make the second run transcription-free: there
is no skip check on the transcript artifact, only on the audio file. -/
theorem c1_counterexample :
    (claude_main allSuccessEnv
      (startState (claude_main allSuccessEnv (startState []) [str "a"]).1.fs)
      [str "a"]).1.whisperRuns ≠ [] := by decide

/-- Counterexample to claim C2 as stated: in the deepseek crawler, with the
download succeeding and both transcription backends failing on the item "a",
the acquired audio file is nevertheless removed — the os.remove at the end
of the item body is unconditional, so a backend failure does not leave the
audio intact. -/
theorem c2_counterexample :
    (deepseek_main bothBackendsFailEnv (startState []) [str "a"]).whisperRuns ≠ [] ∧
    audioPath (str "a") ∉ (deepseek_main bothBackendsFailEnv (startState []) [str "a"]).fs := by
  decide

/-- Counterexample to claim C3 as stated: in the claude crawler, a download
failure on the first of two items raises out of extract_audio, which main
does not catch, so the batch aborts and the second item is never reached. -/
theorem c3_counterexample :
    (claude_main failDownloadAEnv (startState []) [str "a", str "b"]).2 = true ∧
    str "b" ∉ (claude_main failDownloadAEnv (startState []) [str "a", str "b"]).1.visited := by
  decide

/-- Counterexample to claim C5 as stated: the URL https://youtu.be/ matches
no recognized shape (its path holds no identifier), yet get_video_id returns
the empty string rather than None, because the youtu.be branch
unconditionally returns the path with its leading slash removed. -/
theorem c5_counterexample :
    recognizedId emptyShortLinkUrl = none ∧ get_video_id emptyShortLinkUrl ≠ none := by
  decide

/-- Counterexample to claim C6 as stated: with a first page carrying the
video id "a" and the second page fetch failing, the grok variant of
get_all_video_ids returns the empty list — its try block wraps the whole
loop and the except branch returns [], discarding the already-discovered
id (the deepseek variant keeps it). -/
theorem c6_counterexample :
    grok_get_all_video_ids onePageThenErrorFetch 5 = [] ∧
    deepseek_get_all_video_ids onePageThenErrorFetch 5 none [] = [str "a"] := by
  decide

/-- Counterexample to claim C7 as stated: in down_load_ytvoice, the stored
audio path is built from the video title the remote service returns, so for
one and the same identifier and output root, two different remote titles
give two different artifact locations — the path is not a pure function of
identifier and output root. -/
theorem c7_counterexample :
    download_audio_path (str "voices") (str "dQw4w9WgXcQ") (str "Title A") (str "m4a") ≠
    download_audio_path (str "voices") (str "dQw4w9WgXcQ") (str "Title B") (str "m4a") := by
  decide

/-- Counterexample to claim C8 as stated: with limit 1 and a playlist of two
entries whose first download fails, download_playlist attempts acquisition
for both entries — the break condition counts successful downloads only, so
more than limit items are processed. -/
theorem c8_counterexample :
    (download_playlist_loop playlistDlFailA 1
      [{ hostname := some (str "youtu.be"), path := str "/a", query := [] },
       { hostname := some (str "youtu.be"), path := str "/b", query := [] }]
      { successes := 0, attempts := [] }).attempts = [str "a", str "b"] := by
  decide

/-- Membership after recording a path in the filesystem. -/
theorem mem_fsAdd_iff (p q : Str) (fs : List Str) : p ∈ fsAdd q fs ↔ p = q ∨ p ∈ fs := by
  unfold fsAdd
  split
  · constructor
    · exact fun h => Or.inr h
    · rintro (rfl | h)
      · assumption
      · assumption
  · exact List.mem_cons

/-- Recording a path keeps every existing path. -/
theorem subset_fsAdd (q : Str) (fs : List Str) : fs ⊆ fsAdd q fs := by
  intro p hp
  exact (mem_fsAdd_iff p q fs).mpr (Or.inr hp)

/-- A removed path is gone from the filesystem. -/
theorem notMem_fsRemove (p : Str) (fs : List Str) : p ∉ fsRemove p fs := by
  intro h
  have := List.of_mem_filter h
  simp at this

/-- State equation for the whisper transcription step. -/
theorem transcribe_with_whisper_state (env : Collaborators) (s : RunState) (id ap : Str) :
    (transcribe_with_whisper env s id ap).1.downloads = s.downloads ∧
    (transcribe_with_whisper env s id ap).1.visited = s.visited ∧
    (transcribe_with_whisper env s id ap).1.whisperRuns = s.whisperRuns ++ [ap] ∧
    (transcribe_with_whisper env s id ap).1.fs =
      (if env.whisperOk ap then fsAdd (whisperTxtPath id) s.fs else s.fs) := by
  unfold transcribe_with_whisper
  split <;> exact ⟨rfl, rfl, rfl, rfl⟩

/-- State equation for the remote transcription step. -/
theorem transcribe_with_openai_state (env : Collaborators) (s : RunState) (id ap : Str) :
    (transcribe_with_openai env s id ap).1.downloads = s.downloads ∧
    (transcribe_with_openai env s id ap).1.visited = s.visited ∧
    (transcribe_with_openai env s id ap).1.whisperRuns = s.whisperRuns ∧
    (transcribe_with_openai env s id ap).1.fs =
      (if env.audioSize ap > 25 * 1024 * 1024 then s.fs
       else if env.openaiOk ap then fsAdd (openaiTxtPath id) s.fs else s.fs) := by
  unfold transcribe_with_openai
  split
  · exact ⟨rfl, rfl, rfl, rfl⟩
  · split <;> exact ⟨rfl, rfl, rfl, rfl⟩

/-- The filesystem only grows across the two transcription steps of a
crawler item. -/
theorem transcription_steps_fs_mono (env : Collaborators) (s : RunState) (id ap : Str) :
    s.fs ⊆ (transcribe_with_openai env (transcribe_with_whisper env s id ap).1 id ap).1.fs := by
  intro p hp
  obtain ⟨-, -, -, hw⟩ := transcribe_with_whisper_state env s id ap
  obtain ⟨-, -, -, ho⟩ :=
    transcribe_with_openai_state env (transcribe_with_whisper env s id ap).1 id ap
  rw [ho, hw]
  split
  · split
    · exact subset_fsAdd _ _ hp
    · exact hp
  · split
    · split
      · exact subset_fsAdd _ _ (subset_fsAdd _ _ hp)
      · exact subset_fsAdd _ _ hp
    · split
      · exact subset_fsAdd _ _ hp
      · exact hp

/-- When every download in the list succeeds, the claude main loop runs to
completion, the filesystem only grows, and the audio artifact of every
processed id is on disk afterwards. -/
theorem claude_main_completes (env : Collaborators) :
    ∀ (ids : List Str) (s : RunState), (∀ id ∈ ids, env.downloadOk id = true) →
      (claude_main env s ids).2 = false ∧
      s.fs ⊆ (claude_main env s ids).1.fs ∧
      ∀ id ∈ ids, audioPath id ∈ (claude_main env s ids).1.fs := by
  intro ids
  induction ids with
  | nil =>
    intro s _
    exact ⟨rfl, fun p hp => hp, fun id h => absurd h (List.not_mem_nil id)⟩
  | cons id rest ih =>
    intro s hdl
    have hdlid : env.downloadOk id = true := hdl id (List.mem_cons_self id rest)
    have hdlrest : ∀ i ∈ rest, env.downloadOk i = true :=
      fun i hi => hdl i (List.mem_cons_of_mem id hi)
    set s0 : RunState := { s with visited := s.visited ++ [id] } with hs0
    have hstep : ∃ s1, claude_process_item env s0 id = .ok s1 ∧
        s.fs ⊆ s1.fs ∧ audioPath id ∈ s1.fs := by
      unfold claude_process_item claude_extract_audio
      by_cases hmem : audioPath id ∈ s0.fs
      · rw [if_pos hmem]
        refine ⟨_, rfl, ?_, ?_⟩
        · exact fun p hp => transcription_steps_fs_mono env s0 id (audioPath id) hp
        · exact transcription_steps_fs_mono env s0 id (audioPath id) hmem
      · rw [if_neg hmem, if_pos hdlid]
        refine ⟨_, rfl, ?_, ?_⟩
        · intro p hp
          exact transcription_steps_fs_mono env _ id (audioPath id)
            (subset_fsAdd _ _ hp)
        · exact transcription_steps_fs_mono env _ id (audioPath id)
            ((mem_fsAdd_iff _ _ _).mpr (Or.inl rfl))
    obtain ⟨s1, heq, hsub, hap⟩ := hstep
    have hmain : claude_main env s (id :: rest) = claude_main env s1 rest := by
      have hred : claude_main env s (id :: rest) =
          match claude_process_item env s0 id with
          | .error t => (t, true)
          | .ok t => claude_main env t rest := rfl
      rw [hred, heq]
    obtain ⟨hfin, hsub2, hall⟩ := ih s1 hdlrest
    rw [hmain]
    refine ⟨hfin, fun p hp => hsub2 (hsub hp), fun i hi => ?_⟩
    rcases List.mem_cons.mp hi with h | h
    · subst h
      exact hsub2 hap
    · exact hall i h

/-- When the audio artifact of every id in the list is already on disk, the
claude main loop completes with no downloader invocation, both transcription
backends are still invoked for every item, and the filesystem only grows. -/
theorem claude_main_skips_downloads (env : Collaborators) :
    ∀ (ids : List Str) (s : RunState), (∀ id ∈ ids, audioPath id ∈ s.fs) →
      (claude_main env s ids).2 = false ∧
      (claude_main env s ids).1.downloads = s.downloads ∧
      (claude_main env s ids).1.whisperRuns.length = s.whisperRuns.length + ids.length ∧
      s.fs ⊆ (claude_main env s ids).1.fs := by
  intro ids
  induction ids with
  | nil =>
    intro s _
    exact ⟨rfl, rfl, by simp [claude_main], fun p hp => hp⟩
  | cons id rest ih =>
    intro s hall
    have hmem : audioPath id ∈ s.fs := hall id (List.mem_cons_self id rest)
    set s0 : RunState := { s with visited := s.visited ++ [id] } with hs0
    set s3 : RunState :=
      (transcribe_with_openai env (transcribe_with_whisper env s0 id (audioPath id)).1
        id (audioPath id)).1 with hs3
    have hstep : claude_process_item env s0 id = .ok s3 := by
      unfold claude_process_item claude_extract_audio
      rw [if_pos (show audioPath id ∈ s0.fs from hmem)]
    have hmain : claude_main env s (id :: rest) = claude_main env s3 rest := by
      have hred : claude_main env s (id :: rest) =
          match claude_process_item env s0 id with
          | .error t => (t, true)
          | .ok t => claude_main env t rest := rfl
      rw [hred, hstep]
    obtain ⟨hwd, hwv, hwr, -⟩ := transcribe_with_whisper_state env s0 id (audioPath id)
    obtain ⟨hod, hov, hor, -⟩ :=
      transcribe_with_openai_state env (transcribe_with_whisper env s0 id (audioPath id)).1
        id (audioPath id)
    have hsub3 : s.fs ⊆ s3.fs := transcription_steps_fs_mono env s0 id (audioPath id)
    obtain ⟨hfin, hdown, hlen, hsub⟩ := ih s3 (fun i hi =>
      hsub3 (hall i (List.mem_cons_of_mem id hi)))
    rw [hmain]
    refine ⟨hfin, ?_, ?_, fun p hp => hsub (hsub3 hp)⟩
    · rw [hdown, hs3, hod, hwd]
    · rw [hlen, hs3, hor, hwr]
      simp [List.length_append]
      omega

/-- Claim C1 as amended: after a completed first run of the claude crawler
over a list of ids on which every download succeeds, a second run seeded
with the first run's filesystem performs zero new downloader invocations —
the skip check fires because the audio artifact exists — but it still
invokes the local transcription backend once per item: nothing is reported
skipped at the transcript level, because no transcript-existence check
exists. -/
theorem c1_second_run (env : Collaborators) (ids : List Str)
    (h : ∀ id ∈ ids, env.downloadOk id = true) :
    (claude_main env (startState (claude_main env (startState []) ids).1.fs) ids).1.downloads
        = [] ∧
    (claude_main env (startState (claude_main env (startState []) ids).1.fs) ids).2 = false ∧
    (claude_main env (startState (claude_main env (startState []) ids).1.fs) ids).1.whisperRuns.length
        = ids.length := by
  obtain ⟨-, -, hall⟩ := claude_main_completes env ids (startState []) h
  obtain ⟨hfin, hdown, hlen, -⟩ :=
    claude_main_skips_downloads env ids (startState (claude_main env (startState []) ids).1.fs)
      (fun i hi => hall i hi)
  exact ⟨hdown, hfin, by simpa [startState] using hlen⟩

/-- Witness for c1_second_run on the single id "a" with every collaborator
succeeding. -/
theorem c1_second_run_witness :
    (∀ id ∈ [str "a"], allSuccessEnv.downloadOk id = true) ∧
    ((claude_main allSuccessEnv
        (startState (claude_main allSuccessEnv (startState []) [str "a"]).1.fs)
        [str "a"]).1.downloads = [] ∧
      (claude_main allSuccessEnv
        (startState (claude_main allSuccessEnv (startState []) [str "a"]).1.fs)
        [str "a"]).2 = false ∧
      (claude_main allSuccessEnv
        (startState (claude_main allSuccessEnv (startState []) [str "a"]).1.fs)
        [str "a"]).1.whisperRuns.length = [str "a"].length) :=
  ⟨by decide, c1_second_run allSuccessEnv [str "a"] (by decide)⟩

/-- Claim C2 as amended: in test_whisper_large's process_audio_file, a
transcription failure propagates with the filesystem unchanged, leaving the
audio file intact; on success the audio file is removed exactly when
deletion is configured (delete_after, the absence of the keep flag).  In the
deepseek crawler, by contrast, removal is unconditional (see the
counterexample). -/
theorem c2_deletion_gating (tr : Str → Option Str) (fs : List Str) (p : Str) (d : Bool)
    (hp : p ∈ fs) :
    ((tr p).isSome = false → process_audio_file tr fs p d = .error fs) ∧
    ((tr p).isSome = true →
      process_audio_file tr fs p d =
        .ok (if d then fsRemove p (fsAdd (transcriptOutputFile p) fs)
             else fsAdd (transcriptOutputFile p) fs, true) ∧
      (p ∈ fsAfter (process_audio_file tr fs p d) ↔ d = false)) := by
  unfold process_audio_file
  rw [if_pos hp]
  cases htr : tr p with
  | none =>
    refine ⟨fun _ => rfl, fun hcon => ?_⟩
    exact Bool.noConfusion hcon
  | some t =>
    refine ⟨fun hcon => ?_, fun _ => ⟨rfl, ?_⟩⟩
    · exact Bool.noConfusion hcon
    · unfold fsAfter
      cases d with
      | true =>
        constructor
        · intro hmem
          exact absurd hmem (notMem_fsRemove p _)
        · intro hcon
          cases hcon
      | false =>
        constructor
        · intro _; rfl
        · intro _
          exact subset_fsAdd _ _ hp

/-- Witness for c2_deletion_gating: a present audio file, a succeeding
transcription and deletion configured. -/
theorem c2_deletion_gating_witness :
    (str "voices/v/a.mp3" ∈ [str "voices/v/a.mp3"]) ∧
    (((alwaysOkTr (str "voices/v/a.mp3")).isSome = false →
        process_audio_file alwaysOkTr [str "voices/v/a.mp3"] (str "voices/v/a.mp3") true =
          .error [str "voices/v/a.mp3"]) ∧
      ((alwaysOkTr (str "voices/v/a.mp3")).isSome = true →
        process_audio_file alwaysOkTr [str "voices/v/a.mp3"] (str "voices/v/a.mp3") true =
          .ok (if true then
                fsRemove (str "voices/v/a.mp3")
                  (fsAdd (transcriptOutputFile (str "voices/v/a.mp3")) [str "voices/v/a.mp3"])
              else fsAdd (transcriptOutputFile (str "voices/v/a.mp3")) [str "voices/v/a.mp3"],
              true) ∧
        (str "voices/v/a.mp3" ∈
            fsAfter (process_audio_file alwaysOkTr [str "voices/v/a.mp3"]
              (str "voices/v/a.mp3") true) ↔ true = false))) :=
  ⟨by decide,
    c2_deletion_gating alwaysOkTr [str "voices/v/a.mp3"] (str "voices/v/a.mp3") true (by decide)⟩

/-- Claim C3 as amended: in the grok crawler, every item of the list is
reached by the main loop — an acquisition failure on one item is caught
inside extract_audio and the loop continues, so no item's failure prevents
the later items from being attempted.  The claude variant aborts instead
(see the counterexample). -/
theorem c3_grok_visits_all (env : Collaborators) :
    ∀ (ids : List Str) (s : RunState), (grok_main env s ids).visited = s.visited ++ ids := by
  intro ids
  induction ids with
  | nil => intro s; simp [grok_main]
  | cons id rest ih =>
    intro s
    have hred : grok_main env s (id :: rest) =
        match crawler_extract_audio env { s with visited := s.visited ++ [id] } id with
        | (s1, none) => grok_main env s1 rest
        | (s1, some ap) =>
          grok_main env
            (transcribe_with_openai env (transcribe_with_whisper env s1 id ap).1 id ap).1
            rest := rfl
    have hextv : ∀ (t : RunState) (i : Str), (crawler_extract_audio env t i).1.visited = t.visited := by
      intro t i
      unfold crawler_extract_audio
      by_cases hmem : audioPath i ∈ t.fs
      · rw [if_pos hmem]
      · rw [if_neg hmem]
        split <;> rfl
    rw [hred]
    cases hext : crawler_extract_audio env { s with visited := s.visited ++ [id] } id with
    | mk s1 opt =>
      have hv1 : s1.visited = s.visited ++ [id] := by
        have := hextv { s with visited := s.visited ++ [id] } id
        rw [hext] at this
        exact this
      cases opt with
      | none =>
        rw [ih s1, hv1, List.append_assoc]
        rfl
      | some ap =>
        obtain ⟨-, hwv, -, -⟩ := transcribe_with_whisper_state env s1 id ap
        obtain ⟨-, hov, -, -⟩ :=
          transcribe_with_openai_state env (transcribe_with_whisper env s1 id ap).1 id ap
        rw [ih, hov, hwv, hv1, List.append_assoc]
        rfl

/-- Claim C6 as amended: in the deepseek crawler, a failure while fetching a
later page stops the enumeration but every video id accumulated from the
pages fetched before the failure is returned — already-discovered items are
never invalidated.  The grok variant instead returns the empty list on such
a failure (see the counterexample). -/
theorem c6_deepseek_keeps_discovered (pages : PageFetch) :
    ∀ (fuel : Nat) (token : Option Str) (acc : List Str),
      deepseek_get_all_video_ids pages fuel token acc =
        acc ++ discoveredBeforeFailure pages fuel token := by
  intro fuel
  induction fuel with
  | zero =>
    intro token acc
    simp [deepseek_get_all_video_ids, discoveredBeforeFailure]
  | succ n ih =>
    intro token acc
    unfold deepseek_get_all_video_ids discoveredBeforeFailure
    cases hp : pages token with
    | error e => simp
    | ok pr =>
      obtain ⟨items, next⟩ := pr
      cases next with
      | none => simp
      | some t => simp [ih, List.append_assoc]

/-- Claim C7 as amended: in the claude crawler, processing one item can
touch only the three artifact locations that are pure functions of the
item's identifier and the configured directories — whatever the filesystem
held before and however the collaborators behave, any path present
afterwards is either a pre-existing path or one of audioPath id,
whisperTxtPath id, openaiTxtPath id.  In down_load_ytvoice, by contrast,
the stored path also depends on the remotely fetched title (see the
counterexample). -/
theorem c7_claude_item_frame (env : Collaborators) (s : RunState) (id : Str) :
    (stateOfItem (claude_process_item env s id)).fs ⊆
      s.fs ++ [audioPath id, whisperTxtPath id, openaiTxtPath id] := by
  have hsteps : ∀ (t : RunState) (p : Str),
      p ∈ (transcribe_with_openai env (transcribe_with_whisper env t id (audioPath id)).1
        id (audioPath id)).1.fs →
      p ∈ t.fs ∨ p = whisperTxtPath id ∨ p = openaiTxtPath id := by
    intro t p hp
    obtain ⟨-, -, -, hw⟩ := transcribe_with_whisper_state env t id (audioPath id)
    obtain ⟨-, -, -, ho⟩ :=
      transcribe_with_openai_state env (transcribe_with_whisper env t id (audioPath id)).1
        id (audioPath id)
    rw [ho, hw] at hp
    have hX : ∀ q : Str,
        q ∈ (if env.whisperOk (audioPath id) = true then
          fsAdd (whisperTxtPath id) t.fs else t.fs) →
        q ∈ t.fs ∨ q = whisperTxtPath id := by
      intro q hq
      split at hq
      · rcases (mem_fsAdd_iff q _ _).mp hq with h | h
        · exact Or.inr h
        · exact Or.inl h
      · exact Or.inl hq
    split at hp
    · rcases hX p hp with h | h
      · exact Or.inl h
      · exact Or.inr (Or.inl h)
    · split at hp
      · rcases (mem_fsAdd_iff p _ _).mp hp with h | h
        · exact Or.inr (Or.inr h)
        · rcases hX p h with h2 | h2
          · exact Or.inl h2
          · exact Or.inr (Or.inl h2)
      · rcases hX p hp with h | h
        · exact Or.inl h
        · exact Or.inr (Or.inl h)
  intro p hp
  rw [List.mem_append]
  unfold claude_process_item claude_extract_audio at hp
  by_cases hmem : audioPath id ∈ s.fs
  · rw [if_pos hmem] at hp
    rcases hsteps s p hp with h | h | h
    · exact Or.inl h
    · exact Or.inr (by simp [h])
    · exact Or.inr (by simp [h])
  · rw [if_neg hmem] at hp
    by_cases hdl : env.downloadOk id = true
    · rw [if_pos hdl] at hp
      rcases hsteps { s with downloads := s.downloads ++ [id], fs := fsAdd (audioPath id) s.fs }
          p hp with h | h | h
      · rcases (mem_fsAdd_iff p _ _).mp h with h2 | h2
        · exact Or.inr (by simp [h2])
        · exact Or.inl h2
      · exact Or.inr (by simp [h])
      · exact Or.inr (by simp [h])
    · rw [if_neg hdl] at hp
      exact Or.inl hp

/-- Witness for c7_claude_item_frame at a concrete state and item. -/
theorem c7_claude_item_frame_witness :
    (stateOfItem (claude_process_item allSuccessEnv (startState [str "x"]) (str "a"))).fs ⊆
      (startState [str "x"]).fs ++
        [audioPath (str "a"), whisperTxtPath (str "a"), openaiTxtPath (str "a")] :=
  c7_claude_item_frame allSuccessEnv (startState [str "x"]) (str "a")

/-- Claim C8 as amended: the download_playlist loop performs at most limit
successful downloads when the limit is positive — once limit downloads have
succeeded the break fires before any further acquisition — but items whose
download fails do not count toward the cap, so more than limit items can be
attempted (see the counterexample). -/
theorem c8_success_cap (dl : Str → Option Str) (limit : Nat) :
    ∀ (urls : List ParsedUrl) (st : PlaylistState), 0 < limit → st.successes ≤ limit →
      (download_playlist_loop dl limit urls st).successes ≤ limit := by
  intro urls
  induction urls with
  | nil =>
    intro st _ hst
    exact hst
  | cons u rest ih =>
    intro st hlim hst
    unfold download_playlist_loop
    split
    · exact ih st hlim hst
    · split
      · exact ih st hlim hst
      · split
        · exact hst
        · next hbrk =>
          split
          · refine ih _ hlim ?_
            show st.successes + 1 ≤ limit
            omega
          · exact ih _ hlim hst

/-- Witness for c8_success_cap: limit 1 over the two-entry playlist whose
first download fails. -/
theorem c8_success_cap_witness :
    0 < 1 ∧ (PlaylistState.mk 0 []).successes ≤ 1 ∧
    (download_playlist_loop playlistDlFailA 1
      [{ hostname := some (str "youtu.be"), path := str "/a", query := [] },
       { hostname := some (str "youtu.be"), path := str "/b", query := [] }]
      (PlaylistState.mk 0 [])).successes ≤ 1 :=
  ⟨by decide, by decide,
    c8_success_cap playlistDlFailA 1
      [{ hostname := some (str "youtu.be"), path := str "/a", query := [] },
       { hostname := some (str "youtu.be"), path := str "/b", query := [] }]
      (PlaylistState.mk 0 []) (by decide) (by decide)⟩

/-- Claim C5 as amended: for every urlparse result (whose path is empty or
begins with a slash), a URL of a recognized shape carrying a nonempty
identifier makes get_video_id return exactly that identifier, and a URL of
no recognized shape makes it return either None or the empty string — the
empty string (also falsy in Python, and so treated by every caller like
None) arises for a youtu.be URL with a bare or empty path and for an
/embed/ or /v/ URL with an empty segment, instead of the None the original
claim states. -/
theorem c5_extraction (u : ParsedUrl) (hwf : u.path = [] ∨ u.path.headD ' ' = '/') :
    match recognizedId u with
    | some i => get_video_id u = some i
    | none => get_video_id u = none ∨ get_video_id u = some [] := by
  unfold recognizedId get_video_id
  by_cases h1 : u.hostname = some (str "youtu.be")
  · rw [if_pos h1, if_pos h1]
    rcases hwf with hnil | hhead
    · simp [hnil]
    · cases hp : u.path with
      | nil => simp
      | cons c rest =>
        rw [hp] at hhead
        have hc : c = '/' := hhead
        subst hc
        cases rest with
        | nil => simp
        | cons c2 r2 => simp
  · rw [if_neg h1, if_neg h1]
    by_cases h2 : u.hostname = some (str "www.youtube.com") ∨
        u.hostname = some (str "youtube.com")
    · rw [if_pos h2, if_pos h2]
      by_cases h3 : u.path = str "/watch"
      · rw [if_pos h3, if_pos h3]
        cases hq : query_param_v u.query with
        | none => exact Or.inl rfl
        | some v => rfl
      · rw [if_neg h3, if_neg h3]
        by_cases h4 : (str "/embed/").isPrefixOf u.path = true
        · rw [if_pos h4, if_pos h4]
          by_cases h5 : (splitOnSeq (str "/") u.path).getD 2 [] = []
          · rw [if_pos h5]
            exact Or.inr (by rw [h5])
          · rw [if_neg h5]
        · rw [if_neg h4, if_neg h4]
          by_cases h6 : (str "/v/").isPrefixOf u.path = true
          · rw [if_pos h6, if_pos h6]
            by_cases h7 : (splitOnSeq (str "/") u.path).getD 2 [] = []
            · rw [if_pos h7]
              exact Or.inr (by rw [h7])
            · rw [if_neg h7]
          · rw [if_neg h6, if_neg h6]
            exact Or.inl rfl
    · rw [if_neg h2, if_neg h2]
      exact Or.inl rfl

/-- Witness for c5_extraction at the short link youtu.be/dQw4w9WgXcQ. -/
theorem c5_extraction_witness :
    (shortLinkUrl.path = [] ∨ shortLinkUrl.path.headD ' ' = '/') ∧
    match recognizedId shortLinkUrl with
    | some i => get_video_id shortLinkUrl = some i
    | none => get_video_id shortLinkUrl = none ∨ get_video_id shortLinkUrl = some [] :=
  ⟨by decide, c5_extraction shortLinkUrl (by decide)⟩

end AutoYoutubeASR
